import Mathlib

/-!
Verification of the droneCFD geometry pipeline.

This file shallowly embeds the geometric core of the repository:

* `stlTools.py` (`solidSTL`): triangle-soup solid with cached bounding box and
  extremal-y points, and the transforms `translate`, `centerGeometry`, `scale`,
  `rotate` (with `euler2mat`).
* `Meshing.py` (`mesher.blockMeshDomain`, `mesher.snappyHexMesh`): the domain
  sizing computation and the refinement-region planner.

Machine floats are modelled as elements of a linear ordered field `K`
(instantiated at `ℚ` for executable checks and at `ℝ` where trigonometry is
involved).  Python exceptions are modelled with `Except`; calling a mutating
method that raises is modelled by the `run*` wrappers, which return the
unchanged state together with the raised error.
-/

namespace DroneCFD

/-- A vertex: one row of `mesh.data['vectors'][i]`, components in x, y, z order. -/
structure Point (K : Type) where
  x : K
  y : K
  z : K
deriving DecidableEq

/-- One triangle of the STL mesh: `mesh.data['vectors'][i]`, three vertices in order. -/
structure Triangle (K : Type) where
  v1 : Point K
  v2 : Point K
  v3 : Point K
deriving DecidableEq

/-- The triangle soup `mesh.data['vectors']`, in file order. -/
abbrev Solid (K : Type) := List (Triangle K)

variable {K : Type} [LinearOrderedField K]

/-- The three vertices of a triangle, in index order `j = 0, 1, 2`. -/
def triVerts (t : Triangle K) : List (Point K) := [t.v1, t.v2, t.v3]

/-- All vertices of the mesh in row-major scan order (triangle, then vertex). -/
def meshVertices (s : Solid K) : List (Point K) := (s.map triVerts).flatten

/-- Apply a function to every vertex of a triangle. -/
def mapTri (f : Point K → Point K) (t : Triangle K) : Triangle K :=
  ⟨f t.v1, f t.v2, f t.v3⟩

/-- `min` of a list of coordinates (`numpy .min()`); `none` on the empty mesh,
where numpy would raise. -/
def listMin : List K → Option K
  | [] => none
  | a :: t => some (t.foldl min a)

/-- `max` of a list of coordinates (`numpy .max()`). -/
def listMax : List K → Option K
  | [] => none
  | a :: t => some (t.foldl max a)

/-- Bounding box `[xmin, xmax, ymin, ymax, zmin, zmax]` (`solidSTL.bb`). -/
structure BB (K : Type) where
  xmin : K
  xmax : K
  ymin : K
  ymax : K
  zmin : K
  zmax : K
deriving DecidableEq

/-- `solidSTL.boundingBox`, bounding-box part: per-axis min/max over all
vertex components (`self.mesh.x.min()` and friends).  The `getD 0` default is
never reached on a non-empty mesh. -/
def bbOf (s : Solid K) : BB K :=
  { xmin := (listMin ((meshVertices s).map Point.x)).getD 0
    xmax := (listMax ((meshVertices s).map Point.x)).getD 0
    ymin := (listMin ((meshVertices s).map Point.y)).getD 0
    ymax := (listMax ((meshVertices s).map Point.y)).getD 0
    zmin := (listMin ((meshVertices s).map Point.z)).getD 0
    zmax := (listMax ((meshVertices s).map Point.z)).getD 0 }

/-- `solidSTL.boundingBox`, extremal-point part.  The source computes
`np.where(self.mesh.data['vectors'] == val)` — an element-wise comparison of
EVERY component (x, y and z) against `val` — and takes the triangle/vertex
index of the first hit in row-major order.  So the selected point is the first
vertex, in scan order, ANY of whose three coordinates equals `val`.  The
`⟨0, val, 0⟩` fallback mirrors the `np.array([0.0, ymax, 0.0])` branch taken
when there is no hit. -/
def firstComponentMatch (s : Solid K) (val : K) : Point K :=
  match (meshVertices s).find? (fun p => decide (p.x = val ∨ p.y = val ∨ p.z = val)) with
  | some p => p
  | none => ⟨0, val, 0⟩

/-- The mutable state of a `solidSTL` object: the mesh plus the cached
bounding box and extremal-y points. -/
structure SolidState (K : Type) where
  mesh : Solid K
  bb : BB K
  ymaxPoint : Point K
  yminPoint : Point K
deriving DecidableEq

/-- `solidSTL.boundingBox()`: recompute the cached `bb`, `ymaxPoint`,
`yminPoint` from the current mesh. -/
def boundingBox (st : SolidState K) : SolidState K :=
  let b := bbOf st.mesh
  { st with bb := b
            ymaxPoint := firstComponentMatch st.mesh b.ymax
            yminPoint := firstComponentMatch st.mesh b.ymin }

/-- `solidSTL.translate(dx, dy, dz)`: add the offset to every vertex, then
recompute the bounding box. -/
def translate (st : SolidState K) (dx dy dz : K) : SolidState K :=
  boundingBox { st with mesh := st.mesh.map (mapTri fun p => ⟨p.x + dx, p.y + dy, p.z + dz⟩) }

/-- `solidSTL.centerGeometry()`: recompute the bounding box, then translate by
`-(extent/2 + min)` on each axis. -/
def centerGeometry (st : SolidState K) : SolidState K :=
  let st1 := boundingBox st
  let dx := st1.bb.xmax - st1.bb.xmin
  let dy := st1.bb.ymax - st1.bb.ymin
  let dz := st1.bb.zmax - st1.bb.zmin
  translate st1 (-(dx / 2 + st1.bb.xmin)) (-(dy / 2 + st1.bb.ymin)) (-(dz / 2 + st1.bb.zmin))

/-- Python exceptions raised by the embedded code. -/
inductive PyErr where
  | valueError (msg : String)
  | zeroDivisionError
deriving DecidableEq

/-- `solidSTL.scale(x, y, z)`: validate the factors first, then multiply every
vertex component-wise and recompute the bounding box. -/
def scale (st : SolidState K) (x y z : K) : Except PyErr (SolidState K) :=
  if x ≤ 0 ∨ y ≤ 0 ∨ z ≤ 0 then
    .error (.valueError "Scale factors must be positive")
  else
    .ok (boundingBox { st with mesh := st.mesh.map (mapTri fun p => ⟨p.x * x, p.y * y, p.z * z⟩) })

/-- Calling `scale` as a mutating method: on an exception the Python object is
left as it was, so the wrapper returns the original state with the error. -/
def runScale (st : SolidState K) (x y z : K) : SolidState K × Option PyErr :=
  match scale st x y z with
  | .error e => (st, some e)
  | .ok st2 => (st2, none)

/-- `solidSTL.__init__` after the file is parsed: the loaded mesh, then
`self.boundingBox()`, then `self.centerGeometry()`. -/
def solidSTLInit (mesh : Solid K) : SolidState K :=
  centerGeometry (boundingBox { mesh := mesh, bb := ⟨0, 0, 0, 0, 0, 0⟩,
                                ymaxPoint := ⟨0, 0, 0⟩, yminPoint := ⟨0, 0, 0⟩ })

/-! ## Rotation (`solidSTL.rotate` / `solidSTL.euler2mat`) -/

/-- A 3x3 matrix, row-major fields. -/
@[ext]
structure Mat3 (K : Type) where
  a11 : K
  a12 : K
  a13 : K
  a21 : K
  a22 : K
  a23 : K
  a31 : K
  a32 : K
  a33 : K
deriving DecidableEq

/-- Matrix product (`np.dot` on 3x3 matrices). -/
def Mat3.mul (A B : Mat3 K) : Mat3 K :=
  ⟨A.a11 * B.a11 + A.a12 * B.a21 + A.a13 * B.a31,
   A.a11 * B.a12 + A.a12 * B.a22 + A.a13 * B.a32,
   A.a11 * B.a13 + A.a12 * B.a23 + A.a13 * B.a33,
   A.a21 * B.a11 + A.a22 * B.a21 + A.a23 * B.a31,
   A.a21 * B.a12 + A.a22 * B.a22 + A.a23 * B.a32,
   A.a21 * B.a13 + A.a22 * B.a23 + A.a23 * B.a33,
   A.a31 * B.a11 + A.a32 * B.a21 + A.a33 * B.a31,
   A.a31 * B.a12 + A.a32 * B.a22 + A.a33 * B.a32,
   A.a31 * B.a13 + A.a32 * B.a23 + A.a33 * B.a33⟩

instance : Mul (Mat3 K) := ⟨Mat3.mul⟩

/-- The identity matrix (`np.eye(3)`). -/
def Mat3.one : Mat3 K := ⟨1, 0, 0, 0, 1, 0, 0, 0, 1⟩

instance : One (Mat3 K) := ⟨Mat3.one⟩

theorem Mat3.mul_def (A B : Mat3 K) : A * B = Mat3.mul A B := rfl

theorem Mat3.one_def : (1 : Mat3 K) = ⟨1, 0, 0, 0, 1, 0, 0, 0, 1⟩ := rfl

/-- `np.dot(v, rm.T)` for a row vector `v`: this equals the column-vector
product `rm · v`, component `k` being `sum_j rm[k][j] * v[j]`. -/
def matVec (M : Mat3 K) (p : Point K) : Point K :=
  ⟨M.a11 * p.x + M.a12 * p.y + M.a13 * p.z,
   M.a21 * p.x + M.a22 * p.y + M.a23 * p.z,
   M.a31 * p.x + M.a32 * p.y + M.a33 * p.z⟩

/-- The z-axis (yaw) rotation matrix built inside `euler2mat` when `z != 0`. -/
noncomputable def rotZmat (z : ℝ) : Mat3 ℝ :=
  ⟨Real.cos z, -Real.sin z, 0, Real.sin z, Real.cos z, 0, 0, 0, 1⟩

/-- The y-axis (pitch) rotation matrix built inside `euler2mat` when `y != 0`. -/
noncomputable def rotYmat (y : ℝ) : Mat3 ℝ :=
  ⟨Real.cos y, 0, Real.sin y, 0, 1, 0, -Real.sin y, 0, Real.cos y⟩

/-- The x-axis (roll) rotation matrix built inside `euler2mat` when `x != 0`. -/
noncomputable def rotXmat (x : ℝ) : Mat3 ℝ :=
  ⟨1, 0, 0, 0, Real.cos x, -Real.sin x, 0, Real.sin x, Real.cos x⟩

/-- `solidSTL.euler2mat(z, y, x)`: collect the per-axis matrices for the
non-zero angles into `Ms = [Mz?, My?, Mx?]`, and return
`reduce(np.dot, Ms[::-1])` — the product of the REVERSED list — or `np.eye(3)`
when all angles are zero. -/
noncomputable def euler2mat (z y x : ℝ) : Mat3 ℝ :=
  let Ms : List (Mat3 ℝ) :=
    (if z ≠ 0 then [rotZmat z] else []) ++
    (if y ≠ 0 then [rotYmat y] else []) ++
    (if x ≠ 0 then [rotXmat x] else [])
  match Ms.reverse with
  | [] => 1
  | h :: t => t.foldl (fun A B => A * B) h

/-- The body of `solidSTL.rotate` after unit conversion: build
`rm = euler2mat(z, y, x)` and replace every vertex `v` by `np.dot(v, rm.T)`,
then recompute the bounding box. -/
noncomputable def applyRotation (st : SolidState ℝ) (z y x : ℝ) : SolidState ℝ :=
  let rm := euler2mat z y x
  boundingBox { st with mesh := st.mesh.map (mapTri (matVec rm)) }

/-- `np.radians`: multiply by pi / 180. -/
noncomputable def radians (d : ℝ) : ℝ := d * (Real.pi / 180)

/-- `solidSTL.rotate(z, y, x, units)`: convert the angles when
`units == 'degrees'`, keep them when `units == 'radians'`, and raise a
`ValueError` for any other units string — before anything is mutated. -/
noncomputable def rotate (st : SolidState ℝ) (z y x : ℝ) (units : String) :
    Except PyErr (SolidState ℝ) :=
  if units = "degrees" then .ok (applyRotation st (radians z) (radians y) (radians x))
  else if units = "radians" then .ok (applyRotation st z y x)
  else .error (.valueError ("Invalid units: " ++ units ++ ". Must be degrees or radians"))

/-- Calling `rotate` as a mutating method: on an exception the Python object
is left as it was. -/
noncomputable def runRotate (st : SolidState ℝ) (z y x : ℝ) (units : String) :
    SolidState ℝ × Option PyErr :=
  match rotate st z y x units with
  | .error e => (st, some e)
  | .ok st2 => (st2, none)

/-! ## Domain sizing (`mesher.blockMeshDomain`) -/

/-- The output of the domain sizing step: the rewritten `blockMeshDict`
vertices and the per-axis block counts written into `blocks[2]`. -/
structure DomainSpec (K : Type) where
  vertices : List (Point K)
  blocks : ℤ × ℤ × ℤ
deriving DecidableEq

/-- `mesher.blockMeshDomain`, as a function of the template vertices read from
`blockMeshDict['vertices']`, the solid's bounding box and `baseCellSize`:

* raw extents `dx = (xmax - xmin) * 12`, `dy = (ymax - ymin) * 4`,
  `dz = (zmax - zmin) * 4`;
* each extent is forced up to `2.5` if below it;
* block counts `math.ceil(extent / baseCellSize)` — a Python float division,
  which raises `ZeroDivisionError` when `baseCellSize == 0` and silently
  proceeds for negative values;
* every template vertex is scaled component-wise by `(dx, dy, dz)` and its x
  coordinate shifted by `(xmax - xmin) * 6`. -/
def blockMeshDomain [FloorRing K] (template : List (Point K)) (bb : BB K)
    (baseCellSize : K) : Except PyErr (DomainSpec K) :=
  let dx0 := (bb.xmax - bb.xmin) * 12
  let dy0 := (bb.ymax - bb.ymin) * 4
  let dz0 := (bb.zmax - bb.zmin) * 4
  let dx := if dx0 < 5 / 2 then 5 / 2 else dx0
  let dy := if dy0 < 5 / 2 then 5 / 2 else dy0
  let dz := if dz0 < 5 / 2 then 5 / 2 else dz0
  if baseCellSize = 0 then .error .zeroDivisionError
  else
    .ok { vertices := template.map fun p =>
            ⟨p.x * dx + (bb.xmax - bb.xmin) * 6, p.y * dy, p.z * dz⟩
          blocks := (⌈dx / baseCellSize⌉, ⌈dy / baseCellSize⌉, ⌈dz / baseCellSize⌉) }

/-! ## Refinement region planning (`mesher.snappyHexMesh`, geometric part) -/

/-- A `searchableCylinder` refinement geometry. -/
structure Cylinder (K : Type) where
  point1 : Point K
  point2 : Point K
  radius : K
deriving DecidableEq

/-- The geometric values `mesher.snappyHexMesh` writes into
`snappyHexMeshDict`: the downwind wake box with its mode/levels, the
`locationInMesh` point, and the two wingtip cylinders with their
modes/levels. -/
structure SnappyConfig (K : Type) where
  wakeBoxMin : Point K
  wakeBoxMax : Point K
  wakeMode : String
  wakeLevels : List (ℤ × ℤ)
  locationInMesh : Point K
  wingtip1 : Cylinder K
  wingtip1Mode : String
  wingtip1Levels : List (ℤ × ℤ)
  wingtip2 : Cylinder K
  wingtip2Mode : String
  wingtip2Levels : List (ℤ × ℤ)
deriving DecidableEq

/-- The pure computation inside `mesher.snappyHexMesh`, as a function of the
solid's bounding box and cached extremal points:

* `downwindbox` with `min = 2.5 * (xmin, ymin, zmin)` and
  `max = (2.5 * xmax + 4 * (xmax - xmin), 2.5 * ymax, 2.5 * zmax)`,
  mode `inside`, levels `[[1, 4]]`;
* `locationInMesh` set component-wise to the wake box min corner;
* `wingtip1` from `yminPoint` and `wingtip2` from `ymaxPoint`, each a cylinder
  with `point2 = point1 + (6, 0, 0)` (the `zip`/`sum` loop) and radius `0.2`,
  mode `inside`, levels `[[1, 5]]`. -/
def snappyHexMeshConfig (bb : BB K) (yminPoint ymaxPoint : Point K) : SnappyConfig K :=
  let boxenlarge : K := 5 / 2
  let bmin : Point K := ⟨boxenlarge * bb.xmin, boxenlarge * bb.ymin, boxenlarge * bb.zmin⟩
  let bmax : Point K := ⟨boxenlarge * bb.xmax + 4 * (bb.xmax - bb.xmin),
                         boxenlarge * bb.ymax, boxenlarge * bb.zmax⟩
  { wakeBoxMin := bmin
    wakeBoxMax := bmax
    wakeMode := "inside"
    wakeLevels := [(1, 4)]
    locationInMesh := ⟨bmin.x, bmin.y, bmin.z⟩
    wingtip1 := ⟨yminPoint, ⟨yminPoint.x + 6, yminPoint.y + 0, yminPoint.z + 0⟩, 1 / 5⟩
    wingtip1Mode := "inside"
    wingtip1Levels := [(1, 5)]
    wingtip2 := ⟨ymaxPoint, ⟨ymaxPoint.x + 6, ymaxPoint.y + 0, ymaxPoint.z + 0⟩, 1 / 5⟩
    wingtip2Mode := "inside"
    wingtip2Levels := [(1, 5)] }

/-! ## Theorems -/

/-- C5: for every bounding box, the refinement planner produces a wake box
with `min = 2.5 * (xmin, ymin, zmin)` and
`max = (2.5 * xmax + 4 * (xmax - xmin), 2.5 * ymax, 2.5 * zmax)`, containment
mode `inside`, refinement levels `[1, 4]`, and sets the location-in-mesh point
equal to that wake box's min corner. -/
theorem snappy_wake_box (bb : BB K) (pmin pmax : Point K) :
    (snappyHexMeshConfig bb pmin pmax).wakeBoxMin
        = ⟨5 / 2 * bb.xmin, 5 / 2 * bb.ymin, 5 / 2 * bb.zmin⟩ ∧
    (snappyHexMeshConfig bb pmin pmax).wakeBoxMax
        = ⟨5 / 2 * bb.xmax + 4 * (bb.xmax - bb.xmin), 5 / 2 * bb.ymax, 5 / 2 * bb.zmax⟩ ∧
    (snappyHexMeshConfig bb pmin pmax).wakeMode = "inside" ∧
    (snappyHexMeshConfig bb pmin pmax).wakeLevels = [(1, 4)] ∧
    (snappyHexMeshConfig bb pmin pmax).locationInMesh
        = (snappyHexMeshConfig bb pmin pmax).wakeBoxMin := by
  refine ⟨rfl, rfl, rfl, rfl, rfl⟩

/-- C6: for every pair of extremal-y points, the refinement planner produces
two wingtip cylinders, one per extremal point, each with `point1` the extremal
point, `point2 = point1 + (6, 0, 0)`, radius `0.2`, containment mode `inside`
and refinement levels `[1, 5]`; in particular for `yMaxPoint = (3, 5, 0)` the
cylinder is `point1 = (3, 5, 0)`, `point2 = (9, 5, 0)`, `radius = 0.2`. -/
theorem snappy_wingtip_cylinders (bb : BB K) (pmin pmax : Point K) :
    ((snappyHexMeshConfig bb pmin pmax).wingtip1
        = ⟨pmin, ⟨pmin.x + 6, pmin.y, pmin.z⟩, 1 / 5⟩ ∧
     (snappyHexMeshConfig bb pmin pmax).wingtip1Mode = "inside" ∧
     (snappyHexMeshConfig bb pmin pmax).wingtip1Levels = [(1, 5)]) ∧
    ((snappyHexMeshConfig bb pmin pmax).wingtip2
        = ⟨pmax, ⟨pmax.x + 6, pmax.y, pmax.z⟩, 1 / 5⟩ ∧
     (snappyHexMeshConfig bb pmin pmax).wingtip2Mode = "inside" ∧
     (snappyHexMeshConfig bb pmin pmax).wingtip2Levels = [(1, 5)]) ∧
    (snappyHexMeshConfig bb pmin (⟨3, 5, 0⟩ : Point K)).wingtip2
        = ⟨⟨3, 5, 0⟩, ⟨9, 5, 0⟩, 1 / 5⟩ := by
  refine ⟨⟨?_, rfl, rfl⟩, ⟨?_, rfl, rfl⟩, ?_⟩ <;>
    norm_num [snappyHexMeshConfig]

/-- The source's minimum-size clamp `if d < 2.5: d = 2.5` is the maximum with
`2.5`. -/
theorem clamp_eq_max (a : K) : (if a < 5 / 2 then 5 / 2 else a) = max a (5 / 2) := by
  rcases lt_or_le a (5 / 2) with h | h
  · rw [if_pos h, max_eq_right h.le]
  · rw [if_neg (not_lt.mpr h), max_eq_left h]

/-- C4: for every bounding box and `baseCellSize > 0`, domain sizing computes
`dx = (xmax - xmin) * 12`, `dy = (ymax - ymin) * 4`, `dz = (zmax - zmin) * 4`,
clamps each extent to a minimum of 2.5, sets per-axis block counts to
`ceil(extent / baseCellSize)`, scales the template corner vertices
component-wise by `(dx, dy, dz)` and shifts every vertex's x-coordinate by
`+6 * (xmax - xmin)`. -/
theorem blockMeshDomain_formulas [FloorRing K] (template : List (Point K)) (bb : BB K)
    (c : K) (hc : 0 < c) :
    blockMeshDomain template bb c = Except.ok
      { vertices := template.map fun p =>
          ⟨p.x * max ((bb.xmax - bb.xmin) * 12) (5 / 2) + 6 * (bb.xmax - bb.xmin),
           p.y * max ((bb.ymax - bb.ymin) * 4) (5 / 2),
           p.z * max ((bb.zmax - bb.zmin) * 4) (5 / 2)⟩
        blocks := (⌈max ((bb.xmax - bb.xmin) * 12) (5 / 2) / c⌉,
                   ⌈max ((bb.ymax - bb.ymin) * 4) (5 / 2) / c⌉,
                   ⌈max ((bb.zmax - bb.zmin) * 4) (5 / 2) / c⌉) } := by
  have h0 : c ≠ 0 := ne_of_gt hc
  simp only [blockMeshDomain, if_neg h0, clamp_eq_max, mul_comm]

/-- Witness for C4 at the spec's worked example: bounding box
`[0, 2, -3, 3, -1, 1]` and `baseCellSize = 0.25` give extents
`(24, 24, 8)`, block counts `(96, 96, 32)` and an x-shift of `+12` (the
template corner `(1, 1, 1)` lands at `(36, 24, 8)`). -/
theorem blockMeshDomain_formulas_witness :
    (0 : ℚ) < 1 / 4 ∧
    blockMeshDomain [(⟨1, 1, 1⟩ : Point ℚ)] ⟨0, 2, -3, 3, -1, 1⟩ (1 / 4)
      = Except.ok ⟨[⟨36, 24, 8⟩], (96, 96, 32)⟩ :=
  ⟨by norm_num, by
    rw [blockMeshDomain_formulas [(⟨1, 1, 1⟩ : Point ℚ)] ⟨0, 2, -3, 3, -1, 1⟩ (1 / 4)
      (by norm_num)]
    norm_num [max_def]⟩

/-- The block count `ceil(clamped extent / c)` is non-positive for negative
`c`, because the clamped extent is at least 2.5. -/
theorem ceil_clamped_div_nonpos (e c : ℚ) (hc : c < 0) :
    ⌈(if e < 5 / 2 then 5 / 2 else e) / c⌉ ≤ 0 := by
  have he : (0 : ℚ) < if e < 5 / 2 then 5 / 2 else e := by
    split
    · norm_num
    · linarith [not_lt.mp (by assumption : ¬e < 5 / 2)]
  have hq : (if e < 5 / 2 then 5 / 2 else e) / c ≤ 0 :=
    div_nonpos_of_nonneg_of_nonpos he.le hc.le
  exact Int.ceil_le.mpr (by exact_mod_cast hq)

/-- C3 counterexample: at `baseCellSize = -1` (which is `≤ 0`) the domain
sizing computation does NOT fail — it returns a `DomainSpec` (with negative
block counts), so no `InvalidConfigError` is raised. -/
theorem blockMeshDomain_negative_cellsize_no_error :
    blockMeshDomain [(⟨1, 1, 1⟩ : Point ℚ)] ⟨0, 2, -3, 3, -1, 1⟩ (-1)
      = Except.ok ⟨[⟨36, 24, 8⟩], (-24, -24, -8)⟩ := by
  norm_num [blockMeshDomain, Int.ceil_eq_iff]

/-- C3 amended: the code never raises a config error for a non-positive base
cell size: `baseCellSize = 0` fails with `ZeroDivisionError` (from the Python
float division), and `baseCellSize < 0` succeeds, producing a `DomainSpec`
whose per-axis block counts are all non-positive. -/
theorem blockMeshDomain_nonpositive_cellsize (template : List (Point ℚ)) (bb : BB ℚ)
    (c : ℚ) (hc : c < 0) :
    blockMeshDomain template bb 0 = Except.error PyErr.zeroDivisionError ∧
    ∃ d : DomainSpec ℚ, blockMeshDomain template bb c = Except.ok d ∧
      d.blocks.1 ≤ 0 ∧ d.blocks.2.1 ≤ 0 ∧ d.blocks.2.2 ≤ 0 := by
  have h0 : c ≠ 0 := ne_of_lt hc
  constructor
  · simp [blockMeshDomain]
  · have heq : blockMeshDomain template bb c = Except.ok
        ⟨template.map fun p =>
            ⟨p.x * (if (bb.xmax - bb.xmin) * 12 < 5 / 2 then 5 / 2
                    else (bb.xmax - bb.xmin) * 12) + (bb.xmax - bb.xmin) * 6,
             p.y * (if (bb.ymax - bb.ymin) * 4 < 5 / 2 then 5 / 2
                    else (bb.ymax - bb.ymin) * 4),
             p.z * (if (bb.zmax - bb.zmin) * 4 < 5 / 2 then 5 / 2
                    else (bb.zmax - bb.zmin) * 4)⟩,
          (⌈(if (bb.xmax - bb.xmin) * 12 < 5 / 2 then 5 / 2
             else (bb.xmax - bb.xmin) * 12) / c⌉,
           ⌈(if (bb.ymax - bb.ymin) * 4 < 5 / 2 then 5 / 2
             else (bb.ymax - bb.ymin) * 4) / c⌉,
           ⌈(if (bb.zmax - bb.zmin) * 4 < 5 / 2 then 5 / 2
             else (bb.zmax - bb.zmin) * 4) / c⌉)⟩ := by
      simp only [blockMeshDomain, if_neg h0]
    exact ⟨_, heq, ceil_clamped_div_nonpos _ _ hc, ceil_clamped_div_nonpos _ _ hc,
      ceil_clamped_div_nonpos _ _ hc⟩

/-- Witness for the amended C3 at `baseCellSize = -1`. -/
theorem blockMeshDomain_nonpositive_cellsize_witness :
    (-1 : ℚ) < 0 ∧
    (blockMeshDomain [(⟨1, 1, 1⟩ : Point ℚ)] ⟨0, 2, -3, 3, -1, 1⟩ 0
        = Except.error PyErr.zeroDivisionError ∧
     ∃ d : DomainSpec ℚ,
        blockMeshDomain [(⟨1, 1, 1⟩ : Point ℚ)] ⟨0, 2, -3, 3, -1, 1⟩ (-1) = Except.ok d ∧
        d.blocks.1 ≤ 0 ∧ d.blocks.2.1 ≤ 0 ∧ d.blocks.2.2 ≤ 0) :=
  ⟨by norm_num,
   blockMeshDomain_nonpositive_cellsize [(⟨1, 1, 1⟩ : Point ℚ)] ⟨0, 2, -3, 3, -1, 1⟩ (-1)
     (by norm_num)⟩

/-- A concrete solid on which the extremal-point cache goes wrong: the first
vertex's x-coordinate (3) equals the mesh's maximal y-coordinate (3). -/
def mismatchState : SolidState ℚ :=
  ⟨[⟨⟨3, 0, 0⟩, ⟨0, 3, 0⟩, ⟨0, 0, 0⟩⟩], ⟨0, 0, 0, 0, 0, 0⟩, ⟨0, 0, 0⟩, ⟨0, 0, 0⟩⟩

/-- C1: evaluation of the code at the failing input.  After the transform
`translate(0, 0, 0)` the cached bounding box has `ymax = 3`, but the cached
`ymaxPoint` is the vertex `(3, 0, 0)` — selected because its x-coordinate
matched `ymax` in the whole-array `np.where` comparison — whose y-coordinate
is `0 ≠ 3`.  So `yMaxPoint.y = boundingBox.ymax` fails after a transform. -/
theorem ymaxPoint_y_mismatch :
    (translate mismatchState 0 0 0).bb.ymax = 3 ∧
    (translate mismatchState 0 0 0).ymaxPoint = ⟨3, 0, 0⟩ ∧
    (translate mismatchState 0 0 0).ymaxPoint.y ≠ (translate mismatchState 0 0 0).bb.ymax := by
  norm_num [mismatchState, translate, boundingBox, bbOf, meshVertices, triVerts, mapTri,
    firstComponentMatch, listMin, listMax, min_def, max_def, List.find?]

/-! ### Centering -/

theorem boundingBox_mesh (st : SolidState K) : (boundingBox st).mesh = st.mesh := rfl

theorem boundingBox_bb (st : SolidState K) : (boundingBox st).bb = bbOf st.mesh := rfl

theorem meshVertices_ne_nil {s : Solid K} (h : s ≠ []) : meshVertices s ≠ [] := by
  cases s with
  | nil => exact absurd rfl h
  | cons t ts => simp [meshVertices, triVerts]

theorem meshVertices_map (f : Point K → Point K) (s : Solid K) :
    meshVertices (s.map (mapTri f)) = (meshVertices s).map f := by
  induction s with
  | nil => rfl
  | cons t ts ih => simp [meshVertices, triVerts, mapTri] at ih ⊢; exact ih

theorem foldl_min_map_add (t : List K) (a c : K) :
    (t.map fun x => x + c).foldl min (a + c) = t.foldl min a + c := by
  induction t generalizing a with
  | nil => rfl
  | cons b tb ih =>
      simp only [List.map_cons, List.foldl_cons]
      rw [min_add_add_right]
      exact ih (min a b)

theorem foldl_max_map_add (t : List K) (a c : K) :
    (t.map fun x => x + c).foldl max (a + c) = t.foldl max a + c := by
  induction t generalizing a with
  | nil => rfl
  | cons b tb ih =>
      simp only [List.map_cons, List.foldl_cons]
      rw [max_add_add_right]
      exact ih (max a b)

theorem listMin_getD_map_add (l : List K) (hl : l ≠ []) (c : K) :
    (listMin (l.map fun a => a + c)).getD 0 = (listMin l).getD 0 + c := by
  cases l with
  | nil => exact absurd rfl hl
  | cons a t => simp [listMin, foldl_min_map_add]

theorem listMax_getD_map_add (l : List K) (hl : l ≠ []) (c : K) :
    (listMax (l.map fun a => a + c)).getD 0 = (listMax l).getD 0 + c := by
  cases l with
  | nil => exact absurd rfl hl
  | cons a t => simp [listMax, foldl_max_map_add]

theorem map_x_translate (l : List (Point K)) (dx dy dz : K) :
    (l.map fun p => (⟨p.x + dx, p.y + dy, p.z + dz⟩ : Point K)).map Point.x
      = (l.map Point.x).map fun a => a + dx := by
  simp [List.map_map, Function.comp]

theorem map_y_translate (l : List (Point K)) (dx dy dz : K) :
    (l.map fun p => (⟨p.x + dx, p.y + dy, p.z + dz⟩ : Point K)).map Point.y
      = (l.map Point.y).map fun a => a + dy := by
  simp [List.map_map, Function.comp]

theorem map_z_translate (l : List (Point K)) (dx dy dz : K) :
    (l.map fun p => (⟨p.x + dx, p.y + dy, p.z + dz⟩ : Point K)).map Point.z
      = (l.map Point.z).map fun a => a + dz := by
  simp [List.map_map, Function.comp]

/-- Translating every vertex shifts the recomputed bounding box by the same
offsets. -/
theorem bbOf_translate (s : Solid K) (h : s ≠ []) (dx dy dz : K) :
    bbOf (s.map (mapTri fun p => ⟨p.x + dx, p.y + dy, p.z + dz⟩)) =
      ⟨(bbOf s).xmin + dx, (bbOf s).xmax + dx, (bbOf s).ymin + dy, (bbOf s).ymax + dy,
       (bbOf s).zmin + dz, (bbOf s).zmax + dz⟩ := by
  have hne := meshVertices_ne_nil h
  have hx : (meshVertices s).map Point.x ≠ [] := by simpa using hne
  have hy : (meshVertices s).map Point.y ≠ [] := by simpa using hne
  have hz : (meshVertices s).map Point.z ≠ [] := by simpa using hne
  simp only [bbOf, meshVertices_map, map_x_translate, map_y_translate, map_z_translate,
    BB.mk.injEq]
  exact ⟨listMin_getD_map_add _ hx dx, listMax_getD_map_add _ hx dx,
         listMin_getD_map_add _ hy dy, listMax_getD_map_add _ hy dy,
         listMin_getD_map_add _ hz dz, listMax_getD_map_add _ hz dz⟩

theorem translate_bb (st : SolidState K) (h : st.mesh ≠ []) (dx dy dz : K) :
    (translate st dx dy dz).bb =
      ⟨(bbOf st.mesh).xmin + dx, (bbOf st.mesh).xmax + dx, (bbOf st.mesh).ymin + dy,
       (bbOf st.mesh).ymax + dy, (bbOf st.mesh).zmin + dz, (bbOf st.mesh).zmax + dz⟩ :=
  bbOf_translate st.mesh h dx dy dz

/-- After `centerGeometry` the recomputed bounding box is symmetric about the
origin on all three axes. -/
theorem centerGeometry_symm (st : SolidState K) (h : st.mesh ≠ []) :
    (centerGeometry st).bb.xmax + (centerGeometry st).bb.xmin = 0 ∧
    (centerGeometry st).bb.ymax + (centerGeometry st).bb.ymin = 0 ∧
    (centerGeometry st).bb.zmax + (centerGeometry st).bb.zmin = 0 := by
  have h' : (boundingBox st).mesh ≠ [] := h
  simp only [centerGeometry, translate_bb (boundingBox st) h', boundingBox_bb,
    boundingBox_mesh]
  refine ⟨by ring, by ring, by ring⟩

/-- C7: for every non-empty input geometry, after `center()` the recomputed
bounding box satisfies `xmax + xmin = 0`, `ymax + ymin = 0` and
`zmax + zmin = 0` (exactly, in the exact-arithmetic model). -/
theorem center_makes_bb_symmetric (st : SolidState K) (h : st.mesh ≠ []) :
    (centerGeometry st).bb.xmax + (centerGeometry st).bb.xmin = 0 ∧
    (centerGeometry st).bb.ymax + (centerGeometry st).bb.ymin = 0 ∧
    (centerGeometry st).bb.zmax + (centerGeometry st).bb.zmin = 0 :=
  centerGeometry_symm st h

/-- A concrete off-center solid used to witness the centering claims. -/
def offCenterMesh : Solid ℚ := [⟨⟨1, 2, 3⟩, ⟨4, 0, 5⟩, ⟨7, 6, 1⟩⟩]

/-- Witness for C7 on a concrete off-center solid. -/
theorem center_makes_bb_symmetric_witness :
    ((⟨offCenterMesh, ⟨0, 0, 0, 0, 0, 0⟩, ⟨0, 0, 0⟩, ⟨0, 0, 0⟩⟩ : SolidState ℚ).mesh ≠ []) ∧
    ((centerGeometry ⟨offCenterMesh, ⟨0, 0, 0, 0, 0, 0⟩, ⟨0, 0, 0⟩, ⟨0, 0, 0⟩⟩).bb.xmax
        + (centerGeometry ⟨offCenterMesh, ⟨0, 0, 0, 0, 0, 0⟩, ⟨0, 0, 0⟩, ⟨0, 0, 0⟩⟩).bb.xmin = 0 ∧
     (centerGeometry ⟨offCenterMesh, ⟨0, 0, 0, 0, 0, 0⟩, ⟨0, 0, 0⟩, ⟨0, 0, 0⟩⟩).bb.ymax
        + (centerGeometry ⟨offCenterMesh, ⟨0, 0, 0, 0, 0, 0⟩, ⟨0, 0, 0⟩, ⟨0, 0, 0⟩⟩).bb.ymin = 0 ∧
     (centerGeometry ⟨offCenterMesh, ⟨0, 0, 0, 0, 0, 0⟩, ⟨0, 0, 0⟩, ⟨0, 0, 0⟩⟩).bb.zmax
        + (centerGeometry ⟨offCenterMesh, ⟨0, 0, 0, 0, 0, 0⟩, ⟨0, 0, 0⟩, ⟨0, 0, 0⟩⟩).bb.zmin = 0) :=
  ⟨by simp [offCenterMesh],
   center_makes_bb_symmetric ⟨offCenterMesh, ⟨0, 0, 0, 0, 0, 0⟩, ⟨0, 0, 0⟩, ⟨0, 0, 0⟩⟩
     (by simp [offCenterMesh])⟩

/-- C10: the constructor does more than load — it centers the geometry, so
immediately after construction the cached bounding box is symmetric about the
origin on all three axes, whatever the file's vertex coordinates were. -/
theorem init_bb_symmetric (mesh : Solid K) (h : mesh ≠ []) :
    (solidSTLInit mesh).bb.xmax + (solidSTLInit mesh).bb.xmin = 0 ∧
    (solidSTLInit mesh).bb.ymax + (solidSTLInit mesh).bb.ymin = 0 ∧
    (solidSTLInit mesh).bb.zmax + (solidSTLInit mesh).bb.zmin = 0 :=
  centerGeometry_symm _ h

/-- A concrete non-origin-centered mesh used to witness C10. -/
def offCenterMesh2 : Solid ℚ := [⟨⟨10, 20, 30⟩, ⟨12, 21, 33⟩, ⟨11, 26, 31⟩⟩]

/-- Witness for C10 on a concrete non-centered input mesh. -/
theorem init_bb_symmetric_witness :
    (offCenterMesh2 ≠ []) ∧
    ((solidSTLInit offCenterMesh2).bb.xmax + (solidSTLInit offCenterMesh2).bb.xmin = 0 ∧
     (solidSTLInit offCenterMesh2).bb.ymax + (solidSTLInit offCenterMesh2).bb.ymin = 0 ∧
     (solidSTLInit offCenterMesh2).bb.zmax + (solidSTLInit offCenterMesh2).bb.zmin = 0) :=
  ⟨by simp [offCenterMesh2], init_bb_symmetric offCenterMesh2 (by simp [offCenterMesh2])⟩

/-! ### Rotation theorems -/

theorem Mat3.mul_ident (A : Mat3 K) : A * 1 = A := by
  cases A
  simp [Mat3.mul_def, Mat3.mul, Mat3.one_def]

theorem Mat3.ident_mul (A : Mat3 K) : (1 : Mat3 K) * A = A := by
  cases A
  simp [Mat3.mul_def, Mat3.mul, Mat3.one_def]

theorem matVec_one (p : Point K) : matVec 1 p = p := by
  cases p
  simp [matVec, Mat3.one_def]

theorem rotZmat_zero : rotZmat 0 = 1 := by
  simp [rotZmat, Mat3.one_def]

theorem rotYmat_zero : rotYmat 0 = 1 := by
  simp [rotYmat, Mat3.one_def]

theorem rotXmat_zero : rotXmat 0 = 1 := by
  simp [rotXmat, Mat3.one_def]

/-- What `euler2mat` actually builds: reversing `[Mz, My, Mx]` before the
reduction yields the product `Rx * Ry * Rz` (for every angle combination,
since a skipped zero-angle factor equals the identity). -/
theorem euler2mat_eq_xyz (z y x : ℝ) :
    euler2mat z y x = rotXmat x * rotYmat y * rotZmat z := by
  by_cases hz : z = 0 <;> by_cases hy : y = 0 <;> by_cases hx : x = 0 <;>
    simp [euler2mat, hz, hy, hx, rotZmat_zero, rotYmat_zero, rotXmat_zero,
      Mat3.mul_ident, Mat3.ident_mul]

theorem euler2mat_zero : euler2mat 0 0 0 = 1 := by
  simp [euler2mat]

theorem mapTri_matVec_one : mapTri (matVec (1 : Mat3 K)) = id := by
  funext t
  cases t
  simp [mapTri, matVec_one]

theorem applyRotation_zero_mesh (st : SolidState ℝ) : (applyRotation st 0 0 0).mesh = st.mesh := by
  show st.mesh.map (mapTri (matVec (euler2mat 0 0 0))) = st.mesh
  rw [euler2mat_zero, mapTri_matVec_one, List.map_id]

/-- C9: `rotate(0, 0, 0, units)` with either accepted units value succeeds and
leaves every vertex of every triangle unchanged (all-zero angles build no
per-axis matrix, so the rotation matrix is the identity). -/
theorem rotate_zero_identity (st : SolidState ℝ) (units : String)
    (h : units = "degrees" ∨ units = "radians") :
    (runRotate st 0 0 0 units).1.mesh = st.mesh ∧
    (runRotate st 0 0 0 units).2 = none := by
  rcases h with h | h <;> subst h <;>
    constructor <;>
      simp [runRotate, rotate, radians, applyRotation_zero_mesh]

/-- A concrete solid used to witness the rotation claims. -/
def wingMesh : SolidState ℝ := ⟨[⟨⟨1, 0, 0⟩, ⟨0, 2, 0⟩, ⟨0, 0, 3⟩⟩], ⟨0, 0, 0, 0, 0, 0⟩,
  ⟨0, 0, 0⟩, ⟨0, 0, 0⟩⟩

/-- Witness for C9 with `units = 'radians'` on a concrete solid. -/
theorem rotate_zero_identity_witness :
    ("radians" = "degrees" ∨ "radians" = "radians") ∧
    ((runRotate wingMesh 0 0 0 "radians").1.mesh = wingMesh.mesh ∧
     (runRotate wingMesh 0 0 0 "radians").2 = none) :=
  ⟨Or.inr rfl, rotate_zero_identity wingMesh "radians" (Or.inr rfl)⟩

/-- C8: a transform call that fails input validation — `scale` with a
non-positive factor, `rotate` with an unrecognized units string — raises the
corresponding `ValueError` and leaves the solid's state (mesh, cached
bounding box and extremal points) exactly as it was: validation happens
before any mutation. -/
theorem invalid_transforms_rejected (st : SolidState ℝ) (sx sy sz rz ry rx : ℝ)
    (units : String) (hs : sx ≤ 0 ∨ sy ≤ 0 ∨ sz ≤ 0)
    (hu : units ≠ "degrees" ∧ units ≠ "radians") :
    runScale st sx sy sz = (st, some (PyErr.valueError "Scale factors must be positive")) ∧
    runRotate st rz ry rx units
      = (st, some (PyErr.valueError
          ("Invalid units: " ++ units ++ ". Must be degrees or radians"))) := by
  constructor
  · simp [runScale, scale, if_pos hs]
  · simp [runRotate, rotate, hu.1, hu.2]

/-- Witness for C8 with `scale(0, 1, 1)` and `rotate(0, 0, 0, 'meters')`. -/
theorem invalid_transforms_rejected_witness :
    ((0 : ℝ) ≤ 0 ∨ (1 : ℝ) ≤ 0 ∨ (1 : ℝ) ≤ 0) ∧
    ("meters" ≠ "degrees" ∧ "meters" ≠ "radians") ∧
    (runScale wingMesh 0 1 1
        = (wingMesh, some (PyErr.valueError "Scale factors must be positive")) ∧
     runRotate wingMesh 0 0 0 "meters"
        = (wingMesh, some (PyErr.valueError
            ("Invalid units: " ++ "meters" ++ ". Must be degrees or radians")))) :=
  ⟨Or.inl le_rfl, by decide,
   invalid_transforms_rejected wingMesh 0 1 1 0 0 0 "meters" (Or.inl le_rfl) (by decide)⟩

/-- C2 amended: `euler2mat` multiplies the reversed matrix list, so `rotate`
builds `R = Rx * Ry * Rz` and replaces each vertex `v` by `Rx * Ry * Rz * v`:
yaw is applied first to the vertex, then pitch, then roll. -/
theorem rotate_applies_xyz_product (st : SolidState ℝ) (z y x : ℝ) :
    euler2mat z y x = rotXmat x * rotYmat y * rotZmat z ∧
    (rotate st z y x "radians").toOption.map SolidState.mesh
      = some (st.mesh.map (mapTri (matVec (rotXmat x * rotYmat y * rotZmat z)))) := by
  refine ⟨euler2mat_eq_xyz z y x, ?_⟩
  simp [rotate, applyRotation, euler2mat_eq_xyz, Except.toOption, boundingBox_mesh]

/-- The rotation matrix the claim describes: `R = Rz * Ry * Rx`, modelled from
the claim text for comparison with the code's `euler2mat`. -/
noncomputable def euler2matSpec (z y x : ℝ) : Mat3 ℝ := rotZmat z * rotYmat y * rotXmat x

/-- A one-triangle solid with leading vertex `(1, 0, 0)`. -/
def cexSolid : SolidState ℝ := ⟨[⟨⟨1, 0, 0⟩, ⟨0, 0, 0⟩, ⟨0, 0, 0⟩⟩], ⟨0, 0, 0, 0, 0, 0⟩,
  ⟨0, 0, 0⟩, ⟨0, 0, 0⟩⟩

/-- C2 counterexample: at `z = pi/2, y = 0, x = pi/2` (radians) the code maps
the vertex `(1, 0, 0)` to `(0, 0, 1)`, while the claimed matrix
`Rz * Ry * Rx` would map it to `(0, 1, 0)`: the composition order in the
claim is reversed. -/
theorem rotate_composition_counterexample :
    (rotate cexSolid (Real.pi / 2) 0 (Real.pi / 2) "radians").toOption.map SolidState.mesh
        = some [⟨⟨0, 0, 1⟩, ⟨0, 0, 0⟩, ⟨0, 0, 0⟩⟩] ∧
    matVec (euler2matSpec (Real.pi / 2) 0 (Real.pi / 2)) ⟨1, 0, 0⟩ = (⟨0, 1, 0⟩ : Point ℝ) ∧
    ((⟨0, 0, 1⟩ : Point ℝ)) ≠ ⟨0, 1, 0⟩ := by
  refine ⟨?_, ?_, ?_⟩
  · simp [rotate, applyRotation, euler2mat_eq_xyz, Except.toOption, cexSolid, mapTri,
      boundingBox_mesh, rotYmat_zero, Mat3.mul_ident, Mat3.one_def, rotXmat, rotZmat,
      Mat3.mul_def, Mat3.mul, matVec, Real.cos_pi_div_two, Real.sin_pi_div_two]
  · simp [euler2matSpec, rotYmat_zero, Mat3.mul_ident, Mat3.one_def, rotXmat, rotZmat,
      Mat3.mul_def, Mat3.mul, matVec, Real.cos_pi_div_two, Real.sin_pi_div_two]
  · simp [Point.mk.injEq]

end DroneCFD
